import Mathlib

/-!
Verification development for the GradFile thesis-submission application.

The definitions below are a shallow embedding of the TypeScript source:

* `src/src/components/admin/UserRecords.tsx`
  - `filteredAndSortedRecords` (the filter/sort engine, lines 137-216),
  - `handleExport` (CSV export, lines 218-231),
  - `handleDelete` (role-guarded delete, lines 97-133);
* the public submission form (`handleSubmit`, building the inserted row).

JavaScript `Date` values are modelled by `JSDate` (a calendar date plus
milliseconds within the day) wrapped in `Option`: `none` stands for an
Invalid Date (`new Date(malformed)`).  The model fixes the environment
time zone to UTC, so date-only strings (parsed as UTC midnight by JS) and
`toISOString` timestamps live on one time line.  Comparison of `Date`
objects with `>=`/`<=` coerces to the numeric timestamp and is false
whenever either side is NaN (invalid); this is `jsDateGe`/`jsDateLe`.
`Date.prototype.toDateString()` renders `"Invalid Date"` for an invalid
date and an injective `"Ddd Mmm DD YYYY"` rendering of the local calendar
date otherwise; equality of the two rendered strings is modelled by
`jsToDateStringEq`.
-/

/-- JS `a || b` for `a : string | null`: both `null` and the empty string
are falsy, so they fall through to `b`. -/
def jsOrElse : Option String → String → String
  | some s, b => if s = "" then b else s
  | none, b => b

/-- `needle` occurs as a contiguous sublist of `haystack`. -/
def listContains (needle : List Char) : List Char → Bool
  | [] => needle.isEmpty
  | c :: t => needle.isPrefixOf (c :: t) || listContains needle t

/-- JS `haystack.includes(needle)`: substring containment
(`"".includes("")` is `true`). -/
def jsIncludes (haystack needle : String) : Bool :=
  listContains needle.data haystack.data

/-- JS `s.toLowerCase()` (ASCII model): lowercase every character. -/
def jsToLower (s : String) : String :=
  ⟨s.data.map Char.toLower⟩

/-- JS `s.trim()`: strip leading and trailing whitespace. -/
def jsTrim (s : String) : String :=
  ⟨((s.data.dropWhile Char.isWhitespace).reverse.dropWhile Char.isWhitespace).reverse⟩

/-- Model of `a.localeCompare(b)`: a three-way string comparison returning
a negative, zero or positive number.  The engine only consumes its sign. -/
def jsCompareStrings (a b : String) : Int :=
  if a < b then -1 else if a = b then 0 else 1

/-- A valid JavaScript `Date`: a proleptic-Gregorian calendar date together
with the milliseconds elapsed within that day (UTC model). -/
structure JSDate where
  year : Nat
  month : Nat
  day : Nat
  msOfDay : Nat
deriving Repr, DecidableEq

def isLeap (y : Nat) : Bool :=
  (y % 4 == 0 && y % 100 != 0) || y % 400 == 0

def daysInMonth (y m : Nat) : Nat :=
  if m == 2 then (if isLeap y then 29 else 28)
  else if m == 4 || m == 6 || m == 9 || m == 11 then 30
  else 31

/-- Days in all years `0, 1, ..., y-1` (year 0 is a leap year). -/
def daysBeforeYear (y : Nat) : Nat :=
  365 * y + (if y = 0 then 0 else (y - 1) / 4 - (y - 1) / 100 + (y - 1) / 400 + 1)

/-- Days in months `1, ..., m-1` of year `y`. -/
def daysBeforeMonth (y m : Nat) : Nat :=
  (List.range (m - 1)).foldl (fun acc i => acc + daysInMonth y (i + 1)) 0

/-- The numeric timestamp `Date.prototype.getTime()` of a valid date,
shifted so that day 0 is 0000-01-01 (a fixed shift preserves every
comparison and difference the engine performs). -/
def epochMs (d : JSDate) : Nat :=
  (daysBeforeYear d.year + daysBeforeMonth d.year d.month + (d.day - 1)) * 86400000
    + d.msOfDay

/-- `recordDate >= bound` on JS `Date` objects: the comparison coerces both
sides to numbers and is `false` if either is NaN (an invalid date). -/
def jsDateGe : Option JSDate → Option JSDate → Bool
  | some a, some b => epochMs b ≤ epochMs a
  | _, _ => false

/-- `recordDate <= bound` on JS `Date` objects (false on invalid dates). -/
def jsDateLe : Option JSDate → Option JSDate → Bool
  | some a, some b => epochMs a ≤ epochMs b
  | _, _ => false

/-- `a.toDateString() === b.toDateString()`.  `toDateString` renders
`"Invalid Date"` for an invalid date, and for valid dates an injective
rendering of the calendar date (`"Thu Feb 01 2024"`); hence two invalid
dates compare equal, a valid and an invalid date never do, and two valid
dates compare equal exactly when year, month and day coincide. -/
def jsToDateStringEq : Option JSDate → Option JSDate → Bool
  | none, none => true
  | some a, some b => a.year == b.year && a.month == b.month && a.day == b.day
  | _, _ => false

/-- `d.toLocaleDateString()` (en-US model): `"M/D/YYYY"` for a valid date,
`"Invalid Date"` otherwise. -/
def jsToLocaleDateString : Option JSDate → String
  | none => "Invalid Date"
  | some d => toString d.month ++ "/" ++ toString d.day ++ "/" ++ toString d.year

/-- Split a character list on a separator character (pure structural
recursion; `splitOnChar c l` never returns `[]`). -/
def splitOnChar (c : Char) : List Char → List (List Char)
  | [] => [[]]
  | ch :: rest =>
    let r := splitOnChar c rest
    if ch = c then [] :: r
    else
      match r with
      | h :: t => (ch :: h) :: t
      | [] => [[ch]]

def digitsToNat (l : List Char) : Nat :=
  l.foldl (fun n c => n * 10 + (c.toNat - 48)) 0

/-- Parse a fixed-width run of decimal digits. -/
def parseFixedNat (l : List Char) (width : Nat) : Option Nat :=
  if l.length = width ∧ l.all Char.isDigit then some (digitsToNat l) else none

/-- Parse the `YYYY-MM-DD` date part of an ISO 8601 string exactly as the
JS `Date` parser does: four-two-two digit groups, month `1..12`, day
within the month. -/
def parseYMD (l : List Char) : Option (Nat × Nat × Nat) :=
  match splitOnChar '-' l with
  | [ys, ms, ds] =>
    match parseFixedNat ys 4, parseFixedNat ms 2, parseFixedNat ds 2 with
    | some y, some m, some d =>
      if 1 ≤ m ∧ m ≤ 12 ∧ 1 ≤ d ∧ d ≤ daysInMonth y m then some (y, m, d) else none
    | _, _, _ => none
  | _ => none

/-- Parse a fractional-seconds group of one to three digits into
milliseconds. -/
def parseFrac (l : List Char) : Option Nat :=
  if 1 ≤ l.length ∧ l.length ≤ 3 ∧ l.all Char.isDigit then
    some (digitsToNat l * 10 ^ (3 - l.length))
  else none

/-- Parse the `HH:MM[:SS[.sss]]` time part (an optional trailing `Z`
already stripped) into milliseconds of the day. -/
def parseTimePart (l : List Char) : Option Nat :=
  let core :=
    match splitOnChar ':' l with
    | [hs, ms] =>
      match parseFixedNat hs 2, parseFixedNat ms 2 with
      | some h, some m => if h ≤ 23 ∧ m ≤ 59 then some (h, m, 0, 0) else none
      | _, _ => none
    | [hs, ms, ss] =>
      let secPart :=
        match splitOnChar '.' ss with
        | [sec] =>
          match parseFixedNat sec 2 with
          | some s => if s ≤ 59 then some (s, 0) else none
          | none => none
        | [sec, frac] =>
          match parseFixedNat sec 2, parseFrac frac with
          | some s, some f => if s ≤ 59 then some (s, f) else none
          | _, _ => none
        | _ => none
      match parseFixedNat hs 2, parseFixedNat ms 2, secPart with
      | some h, some m, some (s, f) => if h ≤ 23 ∧ m ≤ 59 then some (h, m, s, f) else none
      | _, _, _ => none
    | _ => none
  core.map fun (h, m, s, f) => ((h * 60 + m) * 60 + s) * 1000 + f

/-- `new Date(s)` on the string shapes this application produces:
`"YYYY-MM-DD"` (the date inputs — UTC midnight) and
`"YYYY-MM-DDTHH:MM:SS.sssZ"` (`toISOString` — a UTC instant).  Every
other string is an Invalid Date (`none`). -/
def jsParseDate (s : String) : Option JSDate :=
  match splitOnChar 'T' s.data with
  | [d] => (parseYMD d).map fun (y, m, dd) => ⟨y, m, dd, 0⟩
  | [d, t] =>
    let t := if t.getLast? = some 'Z' then t.dropLast else t
    match parseYMD d, parseTimePart t with
    | some (y, m, dd), some ms => some ⟨y, m, dd, ms⟩
    | _, _ => none
  | _ => none

/-! ## The record and criteria model (`UserRecords.tsx`) -/

/-- The `ThesisSubmission` interface: one row of the `thesis_submissions`
table.  `student_number`, `school` and `program` are `string | null`. -/
structure ThesisSubmission where
  id : String
  full_name : String
  user_type : String
  student_number : Option String
  school : Option String
  campus : String
  program : Option String
  thesis_title : String
  submission_date : String
deriving Repr, DecidableEq

/-- The `'asc' | 'desc'` union type of `sortOrder`. -/
inductive SortOrder where
  | asc
  | desc
deriving Repr, DecidableEq

/-- The view state driving `filteredAndSortedRecords`: search term and
field, user-type filter, campus filter, exact-date filter, date range,
sort key and direction. -/
structure Criteria where
  searchTerm : String
  searchField : String
  filterType : String
  campusFilter : String
  dateFilter : String
  dateRangeStart : String
  dateRangeEnd : String
  sortBy : String
  sortOrder : SortOrder
deriving Repr, DecidableEq

/-- `matchesSearch`: when the trimmed search term is non-empty, a
case-insensitive substring test against the field selected by
`searchField`; the `default` switch branch (hit by `"all"`) is the OR
over name, thesis title, student number, school and program. -/
def matchesSearch (c : Criteria) (r : ThesisSubmission) : Bool :=
  if jsTrim c.searchTerm ≠ "" then
    let searchLower := jsToLower c.searchTerm
    match c.searchField with
    | "name" => jsIncludes (jsToLower r.full_name) searchLower
    | "id_school" =>
      jsIncludes (jsToLower (jsOrElse r.student_number (jsOrElse r.school ""))) searchLower
    | "program" => jsIncludes (jsToLower (jsOrElse r.program "")) searchLower
    | "thesis_title" => jsIncludes (jsToLower r.thesis_title) searchLower
    | _ =>
      jsIncludes (jsToLower r.full_name) searchLower ||
      jsIncludes (jsToLower r.thesis_title) searchLower ||
      jsIncludes (jsToLower (jsOrElse r.student_number "")) searchLower ||
      jsIncludes (jsToLower (jsOrElse r.school "")) searchLower ||
      jsIncludes (jsToLower (jsOrElse r.program "")) searchLower
  else true

/-- `matchesUserType`: `"all"` passes everything; `"lpu"` keeps
`"LPU Student"` rows; `"non-lpu"` keeps `"Non-LPU Student"` rows. -/
def matchesUserType (c : Criteria) (r : ThesisSubmission) : Bool :=
  c.filterType == "all" ||
  (c.filterType == "lpu" && r.user_type == "LPU Student") ||
  (c.filterType == "non-lpu" && r.user_type == "Non-LPU Student")

/-- `matchesCampus`: `"all"` or an exact campus match. -/
def matchesCampus (c : Criteria) (r : ThesisSubmission) : Bool :=
  c.campusFilter == "all" || r.campus == c.campusFilter

/-- `matchesDate`: when the exact-date filter is a non-empty string the
record's date and the filter date are compared via `toDateString()`;
otherwise, when a range bound is non-empty, the record timestamp is
compared against the parsed bound(s); otherwise every record matches.
(A JS `Date` object is truthy even when invalid, so `startDate &&
endDate` only tests which bounds were entered.) -/
def matchesDate (c : Criteria) (r : ThesisSubmission) : Bool :=
  let recordDate := jsParseDate r.submission_date
  if c.dateFilter ≠ "" then
    jsToDateStringEq recordDate (jsParseDate c.dateFilter)
  else if c.dateRangeStart ≠ "" ∨ c.dateRangeEnd ≠ "" then
    if c.dateRangeStart ≠ "" ∧ c.dateRangeEnd ≠ "" then
      jsDateGe recordDate (jsParseDate c.dateRangeStart) &&
      jsDateLe recordDate (jsParseDate c.dateRangeEnd)
    else if c.dateRangeStart ≠ "" then
      jsDateGe recordDate (jsParseDate c.dateRangeStart)
    else
      jsDateLe recordDate (jsParseDate c.dateRangeEnd)
  else true

/-- The complete filter predicate: the conjunction returned at the end of
the `.filter` callback. -/
def matchesRecord (c : Criteria) (r : ThesisSubmission) : Bool :=
  matchesSearch c r && matchesUserType c r && matchesCampus c r && matchesDate c r

/-- The `getTime()` difference used by the `submission_date` sort branch:
NaN (either date invalid) makes the comparator return a value the sort
treats as `0`. -/
def dateCmp (a b : String) : Int :=
  match jsParseDate a, jsParseDate b with
  | some x, some y => (epochMs x : Int) - (epochMs y : Int)
  | _, _ => 0

/-- The `.sort` comparator: a signed comparison selected by `sortBy`
(the `default` branch repeats the `submission_date` comparison), negated
for descending order. -/
def recordComparison (c : Criteria) (a b : ThesisSubmission) : Int :=
  let comparison :=
    match c.sortBy with
    | "submission_date" => dateCmp a.submission_date b.submission_date
    | "full_name" => jsCompareStrings a.full_name b.full_name
    | "campus" => jsCompareStrings a.campus b.campus
    | "thesis_title" => jsCompareStrings a.thesis_title b.thesis_title
    | "user_type" => jsCompareStrings a.user_type b.user_type
    | _ => dateCmp a.submission_date b.submission_date
  match c.sortOrder with
  | .asc => comparison
  | .desc => -comparison

/-- `filteredAndSortedRecords`: `records.filter(...).sort(...)`.
`Array.prototype.sort` is a stable sort, modelled by `List.mergeSort`
with `le a b ↔ comparator a b ≤ 0`. -/
def filteredAndSortedRecords (c : Criteria) (records : List ThesisSubmission) :
    List ThesisSubmission :=
  (records.filter (matchesRecord c)).mergeSort
    (fun a b => recordComparison c a b ≤ 0)

/-! ## CSV export (`handleExport`) -/

/-- The fixed header cells of the export. -/
def csvHeaders : List String :=
  ["Name", "Type", "ID/School", "Campus", "Program", "Thesis Title", "Date"]

/-- The seven cell values `handleExport` extracts from a record, before
quoting. -/
def csvRowFields (r : ThesisSubmission) : List String :=
  [r.full_name,
   r.user_type,
   jsOrElse r.student_number (jsOrElse r.school ""),
   r.campus,
   jsOrElse r.program "",
   r.thesis_title,
   jsToLocaleDateString (jsParseDate r.submission_date)]

/-- Quoting of one cell: the field value is wrapped in double quotes with
no escaping of quotes, commas or newlines inside the value. -/
def csvQuote (field : String) : String :=
  "\"" ++ field ++ "\""

/-- One data row: the quoted cells joined with commas. -/
def csvRow (r : ThesisSubmission) : String :=
  String.intercalate "," ((csvRowFields r).map csvQuote)

/-- The lines of the export: the header row followed by one row per
record of the current view. -/
def exportLines (view : List ThesisSubmission) : List String :=
  String.intercalate "," csvHeaders :: view.map csvRow

/-- `csvContent`: the lines joined with `"\n"`. -/
def exportCsv (view : List ThesisSubmission) : String :=
  String.intercalate "\n" (exportLines view)

/-! A reference CSV reader (RFC 4180 quoting: a field is either unquoted,
or quoted with embedded quotes doubled), used to check whether exported
rows parse back into their original cells. -/

inductive CsvMode where
  | startField
  | unquoted
  | quoted
  | afterQuote
  | err
deriving Repr, DecidableEq

structure CsvState where
  fields : List String
  cur : String
  mode : CsvMode

def csvStep (st : CsvState) (ch : Char) : CsvState :=
  match st.mode with
  | .err => st
  | .startField =>
    if ch = '"' then { st with cur := "", mode := .quoted }
    else if ch = ',' then { st with fields := st.fields ++ [""], cur := "" }
    else { st with cur := String.singleton ch, mode := .unquoted }
  | .unquoted =>
    if ch = ',' then { fields := st.fields ++ [st.cur], cur := "", mode := .startField }
    else if ch = '"' then { st with mode := .err }
    else { st with cur := st.cur.push ch }
  | .quoted =>
    if ch = '"' then { st with mode := .afterQuote }
    else { st with cur := st.cur.push ch }
  | .afterQuote =>
    if ch = '"' then { st with cur := st.cur.push '"', mode := .quoted }
    else if ch = ',' then { fields := st.fields ++ [st.cur], cur := "", mode := .startField }
    else { st with mode := .err }

/-- Parse one CSV record (one physical line as emitted by the exporter)
into its list of cells; `none` when the line is not well-formed CSV. -/
def parseCsvRecord (s : String) : Option (List String) :=
  let final := s.data.foldl csvStep ⟨[], "", .startField⟩
  match final.mode with
  | .startField => some (final.fields ++ [""])
  | .unquoted => some (final.fields ++ [final.cur])
  | .afterQuote => some (final.fields ++ [final.cur])
  | .quoted => none
  | .err => none

/-! ## An allocation-level model of the engine (for the no-mutation
property).  JS arrays are reference values: `records.filter(...)`
allocates a fresh array and `.sort(...)` reorders its receiver in place.
The heap is the list of live arrays; an array reference is an index into
it. -/

structure RecordHeap where
  /-- References `0, ..., next - 1` are the live arrays. -/
  next : Nat
  /-- The contents of each array cell. -/
  store : Nat → List ThesisSubmission

def lookupArray (h : RecordHeap) (ref : Nat) : List ThesisSubmission :=
  h.store ref

/-- Allocate a fresh array; the returned reference is distinct from every
live one. -/
def allocArray (h : RecordHeap) (xs : List ThesisSubmission) : RecordHeap × Nat :=
  (⟨h.next + 1, fun i => if i = h.next then xs else h.store i⟩, h.next)

/-- `arr.filter(p)`: reads the receiver and allocates a fresh array
holding the kept elements; the receiver is untouched. -/
def jsFilterAlloc (h : RecordHeap) (ref : Nat) (p : ThesisSubmission → Bool) :
    RecordHeap × Nat :=
  allocArray h ((lookupArray h ref).filter p)

/-- `arr.sort(cmp)`: reorders the receiver in place and returns the same
reference. -/
def jsSortInPlace (h : RecordHeap) (ref : Nat) (cmp : ThesisSubmission → ThesisSubmission → Int) :
    RecordHeap × Nat :=
  (⟨h.next, fun i =>
      if i = ref then (lookupArray h ref).mergeSort (fun a b => cmp a b ≤ 0)
      else h.store i⟩,
   ref)

/-- `records.filter(...).sort(...)` at the allocation level: filter into
a fresh array, then sort that fresh array in place. -/
def filteredAndSortedRecordsAlloc (h : RecordHeap) (recordsRef : Nat) (c : Criteria) :
    RecordHeap × Nat :=
  let fr := jsFilterAlloc h recordsRef (matchesRecord c)
  jsSortInPlace fr.1 fr.2 (recordComparison c)

/-! ## Role-guarded delete (`handleDelete`) -/

inductive UserRole where
  | Admin
  | Reader
deriving Repr, DecidableEq

inductive DeleteOutcome where
  /-- The `userRole === 'Reader'` guard fired: an "Access Restricted /
  You don't have permission to delete records" notification, and the
  handler returns before any store interaction. -/
  | permissionDenied
  /-- The user declined the `confirm(...)` dialog. -/
  | cancelled
  /-- The store delete succeeded and `fetchRecords()` was triggered. -/
  | deleted
  /-- The store reported an error; the in-memory list is kept. -/
  | storeError
deriving Repr, DecidableEq

/-- `handleDelete(id)`.  The store is abstracted as `storeDelete`
(whether the remote delete of a given id succeeds) and `refetch` (the
list `fetchRecords` would load afterwards); the result pairs the
observable outcome with the in-memory record list after the call. -/
def handleDelete (userRole : Option UserRole) (confirmed : Bool)
    (storeDelete : String → Bool) (refetch : List ThesisSubmission)
    (id : String) (records : List ThesisSubmission) :
    DeleteOutcome × List ThesisSubmission :=
  if userRole = some .Reader then (.permissionDenied, records)
  else if ¬ confirmed then (.cancelled, records)
  else if storeDelete id then (.deleted, refetch)
  else (.storeError, records)

/-! ## The public submission form (`handleSubmit`) -/

/-- The `'lpu' | 'non-lpu'` user-type selector of the form. -/
inductive FormUserType where
  | lpu
  | nonLpu
deriving Repr, DecidableEq

/-- The form's text/select state. -/
structure FormData where
  fullName : String
  studentNumber : String
  school : String
  campus : String
  program : String
  thesisTitle : String
deriving Repr, DecidableEq

/-- The row shape inserted into `thesis_submissions` (no client-side id;
the store assigns it). -/
structure SubmissionInsert where
  full_name : String
  user_type : String
  student_number : Option String
  school : Option String
  campus : String
  program : Option String
  thesis_title : String
  submission_date : String
deriving Repr, DecidableEq

/-- The `submissionData` object built by `handleSubmit`: category decides
which of `student_number` / `school` / `program` are populated and which
are `null`. -/
def buildSubmissionData (userType : FormUserType) (fd : FormData) (now : String) :
    SubmissionInsert :=
  { full_name := fd.fullName
    user_type := if userType = .lpu then "LPU Student" else "Non-LPU Student"
    student_number := if userType = .lpu then some fd.studentNumber else none
    school := if userType = .nonLpu then some fd.school else none
    campus := fd.campus
    program := if userType = .lpu then some fd.program else none
    thesis_title := fd.thesisTitle
    submission_date := now }

/-! ## Sanity checks of the date and CSV models -/

example : jsParseDate "2024-01-01" = some ⟨2024, 1, 1, 0⟩ := by decide
example : jsParseDate "2024-02-30" = none := by decide
example : jsParseDate "zzz" = none := by decide
example : jsParseDate "2024-02-01T10:30:00.250Z" = some ⟨2024, 2, 1, 37800250⟩ := by
  decide
example : jsDateGe (jsParseDate "2024-02-01") (jsParseDate "2024-01-31") = true := by
  decide
example : parseCsvRecord "\"a\",\"b\"" = some ["a", "b"] := by decide
example : parseCsvRecord "\"a\"\"x\",\"b\"" = some ["a\"x", "b"] := by decide

/-! ## Helper lemmas -/

theorem jsDateGe_none (x : Option JSDate) : jsDateGe x none = false := by
  cases x <;> rfl

theorem jsDateLe_none (x : Option JSDate) : jsDateLe x none = false := by
  cases x <;> rfl

/-! ## Claims -/

/-- C1: for every record list `L` and every criteria setting, the
filter-sort engine outputs a permutation of the sublist of `L` whose
members satisfy the conjunction (logical AND) of the search, user-type,
campus and date predicates — so the output holds exactly the matching
records of `L`, each with its multiplicity from `L`, and nothing else. -/
theorem filterSort_perm_of_filter (c : Criteria) (L : List ThesisSubmission) :
    List.Perm (filteredAndSortedRecords c L)
      (L.filter fun r =>
        matchesSearch c r && matchesUserType c r && matchesCampus c r && matchesDate c r) := by
  unfold filteredAndSortedRecords
  exact List.mergeSort_perm _ _

/-- C2: when the exact-date filter is set (and parses) and at least one
date-range bound is also set, the date predicate is decided by the
exact-date filter alone — a record matches iff its submission
timestamp's calendar date (year, month, day) equals the filter date —
and replacing the range bounds by anything whatsoever leaves the
predicate's value unchanged. -/
theorem exactDate_overrides_range (c : Criteria) (r : ThesisSubmission) (fd : JSDate)
    (hf : c.dateFilter ≠ "") (_hrange : c.dateRangeStart ≠ "" ∨ c.dateRangeEnd ≠ "")
    (hp : jsParseDate c.dateFilter = some fd) :
    (matchesDate c r =
      match jsParseDate r.submission_date with
      | some rd => rd.year == fd.year && rd.month == fd.month && rd.day == fd.day
      | none => false) ∧
    (∀ s e, matchesDate { c with dateRangeStart := s, dateRangeEnd := e } r
      = matchesDate c r) := by
  constructor
  · simp only [matchesDate, if_pos hf, hp]
    cases jsParseDate r.submission_date <;> rfl
  · intro s e
    simp only [matchesDate, if_pos hf]

/-- Witness for C2: for the criteria (exact date 2024-02-01, range
2024-01-01 to 2024-03-01) the hypotheses hold, and a record submitted at
2024-02-01T08:30Z matches with the predicate unaffected by the range. -/
theorem exactDate_overrides_range_witness :
    (matchesDate ⟨"", "all", "all", "all", "2024-02-01", "2024-01-01", "2024-03-01",
        "submission_date", .desc⟩
      ⟨"1", "Alice Reyes", "LPU Student", some "2021-00123", none, "Main Campus",
        some "Computer Science", "A Study", "2024-02-01T08:30:00.000Z"⟩ =
      match jsParseDate "2024-02-01T08:30:00.000Z" with
      | some rd => rd.year == 2024 && rd.month == 2 && rd.day == 1
      | none => false) ∧
    (∀ s e, matchesDate ⟨"", "all", "all", "all", "2024-02-01", s, e,
        "submission_date", .desc⟩
      ⟨"1", "Alice Reyes", "LPU Student", some "2021-00123", none, "Main Campus",
        some "Computer Science", "A Study", "2024-02-01T08:30:00.000Z"⟩ =
      matchesDate ⟨"", "all", "all", "all", "2024-02-01", "2024-01-01", "2024-03-01",
        "submission_date", .desc⟩
      ⟨"1", "Alice Reyes", "LPU Student", some "2021-00123", none, "Main Campus",
        some "Computer Science", "A Study", "2024-02-01T08:30:00.000Z"⟩) :=
  exactDate_overrides_range _ _ ⟨2024, 2, 1, 0⟩ (by decide) (Or.inl (by decide))
    (by decide)

/-- C3: with the exact-date filter unset and at least one range bound
set, the date predicate is the conjunction of per-bound timestamp
comparisons: `timestamp ≥ start` when the start is given, `timestamp ≤
end` when the end is given, and an unset bound imposes no constraint on
its side (the comparisons follow JS `Date` semantics: false when either
side fails to parse). -/
theorem dateRange_bound_semantics (c : Criteria) (r : ThesisSubmission)
    (hf : c.dateFilter = "") (hset : c.dateRangeStart ≠ "" ∨ c.dateRangeEnd ≠ "") :
    matchesDate c r =
      ((if c.dateRangeStart = "" then true
        else jsDateGe (jsParseDate r.submission_date) (jsParseDate c.dateRangeStart)) &&
       (if c.dateRangeEnd = "" then true
        else jsDateLe (jsParseDate r.submission_date) (jsParseDate c.dateRangeEnd))) := by
  by_cases hs : c.dateRangeStart = "" <;> by_cases he : c.dateRangeEnd = "" <;>
    simp_all [matchesDate]

/-- Witness for C3 (the spec's scenario): the range 2024-01-01 ..
2024-01-31 excludes a record with submission timestamp 2024-02-01. -/
theorem dateRange_bound_semantics_witness :
    matchesDate ⟨"", "all", "all", "all", "", "2024-01-01", "2024-01-31",
        "submission_date", .desc⟩
      ⟨"1", "Alice Reyes", "LPU Student", some "2021-00123", none, "Main Campus",
        some "Computer Science", "A Study", "2024-02-01"⟩ = false := by
  rw [dateRange_bound_semantics _ _ rfl (Or.inl (by decide))]
  decide

/-- C4: for a non-empty (after trimming) search term, the `"all"` field
selector matches iff the lowercased term is a substring of at least one
of full name, thesis title, student number, school or program (logical
OR), and each single-field selector is a case-insensitive substring
match against that field alone (`"id_school"` against the
student-number-or-school value). -/
theorem searchPredicate_fields (c : Criteria) (r : ThesisSubmission)
    (h : jsTrim c.searchTerm ≠ "") :
    (c.searchField = "all" →
      matchesSearch c r =
        (jsIncludes (jsToLower r.full_name) (jsToLower c.searchTerm) ||
         jsIncludes (jsToLower r.thesis_title) (jsToLower c.searchTerm) ||
         jsIncludes (jsToLower (jsOrElse r.student_number "")) (jsToLower c.searchTerm) ||
         jsIncludes (jsToLower (jsOrElse r.school "")) (jsToLower c.searchTerm) ||
         jsIncludes (jsToLower (jsOrElse r.program "")) (jsToLower c.searchTerm))) ∧
    (c.searchField = "name" →
      matchesSearch c r = jsIncludes (jsToLower r.full_name) (jsToLower c.searchTerm)) ∧
    (c.searchField = "id_school" →
      matchesSearch c r =
        jsIncludes (jsToLower (jsOrElse r.student_number (jsOrElse r.school "")))
          (jsToLower c.searchTerm)) ∧
    (c.searchField = "program" →
      matchesSearch c r =
        jsIncludes (jsToLower (jsOrElse r.program "")) (jsToLower c.searchTerm)) ∧
    (c.searchField = "thesis_title" →
      matchesSearch c r = jsIncludes (jsToLower r.thesis_title) (jsToLower c.searchTerm)) := by
  refine ⟨?_, ?_, ?_, ?_, ?_⟩ <;> intro hfield <;>
    (simp only [matchesSearch, if_pos h, hfield]; try rfl)

/-- Witness for C4 (the spec's scenario): searching "alice" across all
fields matches Alice's record. -/
theorem searchPredicate_fields_witness :
    matchesSearch ⟨"alice", "all", "all", "all", "", "", "", "submission_date", .desc⟩
      ⟨"1", "Alice", "LPU Student", some "2021-00123", none, "Main Campus",
        some "Computer Science", "A Study", "2024-02-01"⟩ = true := by
  rw [(searchPredicate_fields
    ⟨"alice", "all", "all", "all", "", "", "", "submission_date", .desc⟩
    ⟨"1", "Alice", "LPU Student", some "2021-00123", none, "Main Campus",
      some "Computer Science", "A Study", "2024-02-01"⟩ (by decide)).1 rfl]
  decide

/-- C5: the engine never mutates the input record list.  At the
allocation level, `records.filter(...).sort(...)` leaves the cell of
`records` exactly as it was, returns a reference distinct from
`records`, and that fresh array holds precisely the filtered-and-sorted
view of the input list. -/
theorem engine_no_mutation (h : RecordHeap) (recordsRef : Nat) (c : Criteria)
    (href : recordsRef < h.next) :
    lookupArray (filteredAndSortedRecordsAlloc h recordsRef c).1 recordsRef
      = lookupArray h recordsRef ∧
    (filteredAndSortedRecordsAlloc h recordsRef c).2 ≠ recordsRef ∧
    lookupArray (filteredAndSortedRecordsAlloc h recordsRef c).1
        (filteredAndSortedRecordsAlloc h recordsRef c).2
      = filteredAndSortedRecords c (lookupArray h recordsRef) := by
  have hne : recordsRef ≠ h.next := Nat.ne_of_lt href
  refine ⟨?_, ?_, ?_⟩ <;>
    simp [filteredAndSortedRecordsAlloc, jsFilterAlloc, jsSortInPlace, allocArray,
      lookupArray, filteredAndSortedRecords, hne, Ne.symm hne]

/-- Witness for C5: a one-array heap holding one record; the engine
leaves that array intact and builds its view in a fresh cell. -/
theorem engine_no_mutation_witness :
    lookupArray
      (filteredAndSortedRecordsAlloc
        ⟨1, fun i => if i = 0 then
            [⟨"1", "Alice", "LPU Student", some "2021-00123", none, "Main Campus",
              some "Computer Science", "A Study", "2024-02-01"⟩] else []⟩
        0
        ⟨"", "all", "all", "all", "", "", "", "submission_date", .desc⟩).1 0
      = lookupArray
        ⟨1, fun i => if i = 0 then
            [⟨"1", "Alice", "LPU Student", some "2021-00123", none, "Main Campus",
              some "Computer Science", "A Study", "2024-02-01"⟩] else []⟩ 0 ∧
    (filteredAndSortedRecordsAlloc
        ⟨1, fun i => if i = 0 then
            [⟨"1", "Alice", "LPU Student", some "2021-00123", none, "Main Campus",
              some "Computer Science", "A Study", "2024-02-01"⟩] else []⟩
        0
        ⟨"", "all", "all", "all", "", "", "", "submission_date", .desc⟩).2 ≠ 0 ∧
    lookupArray
      (filteredAndSortedRecordsAlloc
        ⟨1, fun i => if i = 0 then
            [⟨"1", "Alice", "LPU Student", some "2021-00123", none, "Main Campus",
              some "Computer Science", "A Study", "2024-02-01"⟩] else []⟩
        0
        ⟨"", "all", "all", "all", "", "", "", "submission_date", .desc⟩).1
      (filteredAndSortedRecordsAlloc
        ⟨1, fun i => if i = 0 then
            [⟨"1", "Alice", "LPU Student", some "2021-00123", none, "Main Campus",
              some "Computer Science", "A Study", "2024-02-01"⟩] else []⟩
        0
        ⟨"", "all", "all", "all", "", "", "", "submission_date", .desc⟩).2
      = filteredAndSortedRecords
        ⟨"", "all", "all", "all", "", "", "", "submission_date", .desc⟩
        (lookupArray
          ⟨1, fun i => if i = 0 then
              [⟨"1", "Alice", "LPU Student", some "2021-00123", none, "Main Campus",
                some "Computer Science", "A Study", "2024-02-01"⟩] else []⟩ 0) :=
  engine_no_mutation _ 0 _ (by decide)

/-- C6: on the empty record list every criteria setting yields the empty
view, and exporting that view produces exactly the fixed header line
(which itself contains no newline) — one line, no record rows. -/
theorem emptyInput_empty_view_header_only (c : Criteria) :
    filteredAndSortedRecords c [] = [] ∧
    exportLines (filteredAndSortedRecords c []) =
      ["Name,Type,ID/School,Campus,Program,Thesis Title,Date"] ∧
    exportCsv (filteredAndSortedRecords c []) =
      "Name,Type,ID/School,Campus,Program,Thesis Title,Date" ∧
    ("Name,Type,ID/School,Campus,Program,Thesis Title,Date").data.all
      (fun ch => ch != '\n') = true := by
  have h0 : filteredAndSortedRecords c [] = [] := by
    simp [filteredAndSortedRecords]
  refine ⟨h0, ?_, ?_, by decide⟩ <;> rw [h0] <;> rfl

/-- C7 (counterexample to the claim as stated): a malformed exact-date
filter does not make the date predicate false for *every* record — a
record whose own submission timestamp is also unparseable matches,
because both sides render as the string `"Invalid Date"` and
`toDateString()` comparison then succeeds. -/
theorem malformedDate_matches_invalid_record :
    jsParseDate "not-a-date" = none ∧
    jsParseDate "garbage" = none ∧
    matchesDate ⟨"", "all", "all", "all", "not-a-date", "", "", "submission_date", .desc⟩
      ⟨"1", "Alice", "LPU Student", some "2021-00123", none, "Main Campus",
        some "Computer Science", "A Study", "garbage"⟩ = true := by
  decide

/-- C7 (amended): the filter pass never throws; a malformed date-range
bound makes the range predicate false for every record, and a malformed
exact-date filter makes the exact-date predicate false for every record
whose own submission timestamp parses (the remaining case is the
counterexample above). -/
theorem malformedDate_fails_closed :
    (∀ (c : Criteria) (r : ThesisSubmission),
      c.dateFilter ≠ "" → jsParseDate c.dateFilter = none →
      (jsParseDate r.submission_date).isSome = true → matchesDate c r = false) ∧
    (∀ (c : Criteria) (r : ThesisSubmission),
      c.dateFilter = "" →
      ((c.dateRangeStart ≠ "" ∧ jsParseDate c.dateRangeStart = none) ∨
       (c.dateRangeEnd ≠ "" ∧ jsParseDate c.dateRangeEnd = none)) →
      matchesDate c r = false) := by
  constructor
  · intro c r hf hp hsome
    obtain ⟨rd, hrd⟩ := Option.isSome_iff_exists.mp hsome
    simp only [matchesDate, if_pos hf, hp, hrd]
    rfl
  · intro c r hf hbad
    rcases hbad with ⟨hs, hpn⟩ | ⟨he, hpn⟩
    · by_cases hee : c.dateRangeEnd = "" <;>
        simp_all [matchesDate, jsDateGe_none]
    · by_cases hss : c.dateRangeStart = "" <;>
        simp_all [matchesDate, jsDateLe_none]

/-- Witness for the amended C7: a malformed exact date and a malformed
range start each exclude a record with a valid timestamp. -/
theorem malformedDate_fails_closed_witness :
    matchesDate ⟨"", "all", "all", "all", "oops", "", "", "submission_date", .desc⟩
      ⟨"1", "Alice", "LPU Student", some "2021-00123", none, "Main Campus",
        some "Computer Science", "A Study", "2024-02-01"⟩ = false ∧
    matchesDate ⟨"", "all", "all", "all", "", "bad-start", "", "submission_date", .desc⟩
      ⟨"1", "Alice", "LPU Student", some "2021-00123", none, "Main Campus",
        some "Computer Science", "A Study", "2024-02-01"⟩ = false :=
  ⟨malformedDate_fails_closed.1 _ _ (by decide) (by decide) (by decide),
   malformedDate_fails_closed.2 _ _ rfl (Or.inl ⟨by decide, by decide⟩)⟩

/-- C8: a delete attempted while the actor's role is Reader is rejected
with the permission outcome and leaves the in-memory record list
untouched; the result is the same for every store behavior and every
refetch result, i.e. the handler returns before any store call. -/
theorem reader_delete_rejected (confirmed : Bool) (storeDelete : String → Bool)
    (refetch : List ThesisSubmission) (id : String)
    (records : List ThesisSubmission) :
    handleDelete (some .Reader) confirmed storeDelete refetch id records
      = (.permissionDenied, records) := by
  rfl

/-- C9: the row built by the public form satisfies the category
invariant — an affiliated (`LPU Student`) submission has a student
number, no school and a program; an external submission has a school, no
student number and no program; so exactly one of student number / school
is non-null and the program is non-null iff the category is
affiliated. -/
theorem submission_category_invariant (ut : FormUserType) (fd : FormData) (now : String) :
    ((buildSubmissionData ut fd now).user_type = "LPU Student" ↔ ut = .lpu) ∧
    ((buildSubmissionData ut fd now).student_number.isSome = true ↔ ut = .lpu) ∧
    ((buildSubmissionData ut fd now).school.isSome = true ↔ ut = .nonLpu) ∧
    ((buildSubmissionData ut fd now).program.isSome = true ↔ ut = .lpu) ∧
    ¬((buildSubmissionData ut fd now).student_number.isSome = true ∧
      (buildSubmissionData ut fd now).school.isSome = true) ∧
    ((buildSubmissionData ut fd now).student_number.isSome = true ∨
     (buildSubmissionData ut fd now).school.isSome = true) := by
  cases ut <;> simp [buildSubmissionData]

set_option maxRecDepth 4000 in
/-- C10: the export wraps each raw cell value in double quotes with no
escaping, so a cell containing a double quote yields a row a CSV reader
rejects, and a cell containing a newline turns a one-record export into
three physical lines instead of two — such views do not parse back into
their original seven fields. -/
theorem export_unescaped_quoting :
    (∀ r, csvRow r =
      String.intercalate ","
        ((csvRowFields r).map fun field => "\"" ++ field ++ "\"")) ∧
    parseCsvRecord
      (csvRow ⟨"1", "Bob \"Bobby\" Cruz", "LPU Student", some "2021-00200", none,
        "Main Campus", some "Engineering", "A Study", "2024-02-01"⟩) = none ∧
    (splitOnChar '\n'
      (exportCsv [⟨"2", "Line\nBreak", "LPU Student", some "2021-00201", none,
        "Main Campus", some "Engineering", "Some Title", "2024-02-01"⟩]).data).length
      = 3 := by
  refine ⟨fun r => rfl, by decide, by decide⟩
